import Mathlib

/-!
Verification of the Yapping repository (src/index.js): a shallow embedding
of its text transformer `yap`, the `altCase` helper, the shuffle step, the
integration stub `integrateWithService`, the lifecycle operations
`startBot` / `stopBot`, and the HTTP request handler inside `startServer`.

Modelling conventions:
* JavaScript strings are `List Char`; per-character case mapping uses
  `Char.toUpper` / `Char.toLower` (locale-independent single-character
  case mapping; multi-character Unicode expansions are not modelled).
* `parseInt(x, 10)` results are `Option Int` (`none` models `NaN`).
* The JavaScript truthiness idiom `x || d` is modelled by `jsOrInt`
  (numbers: `0` and `NaN` are falsy) and `jsOrStr` (strings: `""` is
  falsy); absent values (`undefined`) are `none`.
* `Math.random` based shuffling (`arr.sort(() => Math.random() - 0.5)`)
  is modelled as an insertion sort driven by a boolean oracle, one boolean
  per comparator call; the claims about shuffle only concern the multiset
  of characters, which holds for any comparison sort.
* The async integration stub and the heartbeat loop perform no observable
  effect other than their return values, so they are modelled as pure
  functions; the process-wide `isRunning` flag is threaded explicitly as
  a `Bool` state.
-/

/-- Source constant `PACKAGE_MAX_REPEAT = 200`. -/
def PACKAGE_MAX_REPEAT : Int := 200

/-- JavaScript `v || d` where `v` is the result of `parseInt` (`none` is
`NaN`); both `NaN` and `0` are falsy. -/
def jsOrInt (v : Option Int) (d : Int) : Int :=
  match v with
  | none => d
  | some k => if k = 0 then d else k

/-- JavaScript `v || d` for an optionally-present string; `undefined`
(`none`) and the empty string are falsy. -/
def jsOrStr (v : Option String) (d : String) : String :=
  match v with
  | none => d
  | some s => if s = "" then d else s

/-- JavaScript `a || b || d` for two optionally-present strings. -/
def jsOr2 (a b : Option String) (d : String) : String :=
  jsOrStr a (jsOrStr b d)

/-- JavaScript `parseInt(s, 10)`: skip leading spaces, optional sign,
then read decimal digits; `NaN` (here `none`) if no digit was read. -/
def jsParseInt (s : String) : Option Int :=
  let cs := s.toList.dropWhile (fun c => c = ' ')
  let signAndRest : Int × List Char :=
    match cs with
    | '-' :: r => (-1, r)
    | '+' :: r => (1, r)
    | r => (1, r)
  let ds := signAndRest.2.takeWhile (fun c => '0' ≤ c ∧ c ≤ '9')
  if ds.isEmpty then none
  else some (signAndRest.1 * (ds.foldl (fun a c => a * 10 + (c.toNat - 48)) 0 : Nat))

/-- Source line 45: `Math.max(1, Math.min(PACKAGE_MAX_REPEAT, parseInt(n, 10) || 3))`,
the effective repeat count computed inside `yap` (default 3). -/
def yapEffCount (n : Option Int) : Int :=
  max 1 (min PACKAGE_MAX_REPEAT (jsOrInt n 3))

/-- The effective count of `yap` as a natural number (it is always ≥ 1). -/
def yapEffCountNat (n : Option Int) : Nat :=
  (yapEffCount n).toNat

/-- Source line 139: `Math.max(1, Math.min(PACKAGE_MAX_REPEAT, parseInt(n, 10) || 1))`,
the effective repeat count computed in the HTTP handler (default 1). -/
def httpEffCount (n : Option Int) : Int :=
  max 1 (min PACKAGE_MAX_REPEAT (jsOrInt n 1))

/-- Source lines 70-75: `altCase(s, i)` maps each character `ch` at index
`idx` to `ch.toUpperCase()` when `idx % 2 === i % 2` and to
`ch.toLowerCase()` otherwise. -/
def altCase (s : List Char) (i : Nat) : List Char :=
  s.enum.map (fun p => if p.1 % 2 = i % 2 then p.2.toUpper else p.2.toLower)

/-- The trailing marker of a `funny` piece: `"!"` on even repetition
indices, `"..."` on odd ones (source line 58). -/
def funnyMarker (i : Nat) : List Char :=
  if i % 2 = 0 then ['!'] else ['.', '.', '.']

/-- One comparator-driven insertion step: insert `c` into the list,
consuming one oracle boolean per comparison, returning the new list and
the next unused oracle index. -/
def insertRand (o : Nat → Bool) (c : Char) : List Char → Nat → List Char × Nat
  | [], k => ([c], k)
  | x :: xs, k =>
    if o k then (c :: x :: xs, k + 1)
    else
      let r := insertRand o c xs (k + 1)
      (x :: r.1, r.2)

/-- Oracle-driven insertion sort: the model of JavaScript
`arr.sort(() => Math.random() - 0.5)`, whose comparator ignores its
arguments and answers randomly.  Each comparison consumes one oracle
boolean. -/
def sortRand (o : Nat → Bool) : List Char → Nat → List Char × Nat
  | [], k => ([], k)
  | x :: xs, k =>
    let r := sortRand o xs k
    insertRand o x r.1 r.2

/-- Source line 55: the shuffle step `t.split("").sort(() => Math.random() - 0.5).join("")`,
with the random comparator replaced by the boolean oracle `o`. -/
def shuffleJS (o : Nat → Bool) (s : List Char) : List Char :=
  (sortRand o s 0).1

/-- The per-iteration transform of `yap` (the `switch (mode)` on source
lines 50-63): `caps` uppercases, `shuffle` randomly permutes, `funny`
applies `altCase` and appends the parity marker, `echo` and any other
mode leave the text unchanged. -/
def modeXform (o : Nat → Bool) (text : List Char) (mode : String) (i : Nat) : List Char :=
  if mode = "caps" then text.map Char.toUpper
  else if mode = "shuffle" then shuffleJS o text
  else if mode = "funny" then altCase text i ++ funnyMarker i
  else text

/-- Options of `yap` (source lines 37-43).  The field `n` holds the result
of `parseInt(opts.n, 10)` as `Option Int` (`none` models `NaN`); `pre` and
`suf` model the JavaScript `prefix` and `suffix` options (renamed because
`prefix` is a Lean keyword).  Defaults mirror the destructuring defaults
`n = 3`, `sep = " "`, `mode = "echo"` and empty prefix and suffix. -/
structure YapOpts where
  n : Option Int := some 3
  sep : List Char := [' ']
  mode : String := "echo"
  pre : List Char := []
  suf : List Char := []
deriving Repr, DecidableEq

/-- Source lines 36-68: the core transform `yap`.  It builds
`yapEffCountNat opts.n` pieces, each `prefix + transformed + suffix`, and
joins them with the separator.  The oracle family `o` supplies the random
comparator answers of iteration `i` as `o i`. -/
def yap (o : Nat → Nat → Bool) (text : List Char) (opts : YapOpts) : List Char :=
  List.intercalate opts.sep
    ((List.range (yapEffCountNat opts.n)).map
      (fun i => opts.pre ++ modeXform (o i) text opts.mode i ++ opts.suf))

/-- Result shape `{ ok, info?, error? }` returned by `integrateWithService`
(source lines 83-92). -/
structure SendResult where
  ok : Bool
  info : Option String
  error : Option String
deriving Repr, DecidableEq

/-- Source lines 83-92: the integration stub.  It ignores its inputs,
waits (no observable effect) and returns a fixed success result; it never
throws, so it is a total function. -/
def integrateWithService (transformedText : List Char)
    (config : List (String × String)) : SendResult :=
  { ok := true
    info := some "simulated-send (fill integrateWithService with real code)"
    error := none }

/-- Source line 102: `defaultAccount = safeReadJSON(account.json) || {}`.
The repository contains no `account.json`, so `safeReadJSON` returns
`null` and the default account is the empty configuration. -/
def defaultAccount : List (String × String) := []

/-- Result shape of `startBot` / `stopBot`: `{ ok, info?, error?, config? }`. -/
structure BotResult where
  ok : Bool
  info : Option String
  error : Option String
  config : Option (List (String × String))
deriving Repr, DecidableEq

/-- Source lines 104-115: `startBot`.  The process-wide `isRunning` flag is
threaded explicitly: the function receives the current flag and returns
the result together with the new flag.  When already running it fails with
`"bot already running"` and leaves the flag unchanged; otherwise it sets
the flag, launches the heartbeat loop (no observable effect) and succeeds
with the merged configuration `{...defaultAccount, ...opts}` (with the
empty `defaultAccount`, just `opts`).  It never throws. -/
def startBot (running : Bool) (opts : List (String × String)) : BotResult × Bool :=
  if running then
    ({ ok := false, info := none, error := some "bot already running", config := none },
      running)
  else
    ({ ok := true, info := some "bot started", error := none,
       config := some (defaultAccount ++ opts) },
      true)

/-- Source lines 117-121: `stopBot`.  When not running it fails with
`"bot not running"` and leaves the flag unchanged; otherwise it clears the
flag and succeeds.  It never throws. -/
def stopBot (running : Bool) : BotResult × Bool :=
  if !running then
    ({ ok := false, info := none, error := some "bot not running", config := none },
      running)
  else
    ({ ok := true, info := some "bot stopped", error := none, config := none },
      false)

/-- Query parameters of an HTTP request (source line 130, `u.query`).
`none` models an absent parameter; `some ""` a parameter present with the
empty value.  `pre` and `suf` model `q.prefix` and `q.suffix`. -/
structure HttpQuery where
  msg : Option String := none
  message : Option String := none
  n : Option String := none
  count : Option String := none
  sep : Option String := none
  mode : Option String := none
  pre : Option String := none
  suf : Option String := none
deriving Repr, DecidableEq

/-- Source line 131: `q.msg || q.message` with empty-string fallback. -/
def resolvedMsg (q : HttpQuery) : String := jsOr2 q.msg q.message ""

/-- Source line 132: `q.n || q.count || 1`, followed by `parseInt(n, 10)`
on line 139.  When both parameters are falsy the literal number `1` flows
into `parseInt`, which yields `1`. -/
def httpParsedN (q : HttpQuery) : Option Int :=
  match q.n with
  | some s =>
    if s = "" then
      match q.count with
      | some t => if t = "" then some 1 else jsParseInt t
      | none => some 1
    else jsParseInt s
  | none =>
    match q.count with
    | some t => if t = "" then some 1 else jsParseInt t
    | none => some 1

/-- Source line 133: `q.sep` with single-space fallback. -/
def resolvedSep (q : HttpQuery) : String := jsOrStr q.sep " "

/-- Source line 134: `q.mode` with fallback `"echo"`. -/
def resolvedMode (q : HttpQuery) : String := jsOrStr q.mode "echo"

/-- Source line 135: `q.prefix` with empty-string fallback. -/
def resolvedPre (q : HttpQuery) : String := jsOrStr q.pre ""

/-- Source line 136: `q.suffix` with empty-string fallback. -/
def resolvedSuf (q : HttpQuery) : String := jsOrStr q.suf ""

/-- Source line 139: the `safeN` computed by the HTTP handler. -/
def httpSafeN (q : HttpQuery) : Int := httpEffCount (httpParsedN q)

/-- The JSON envelope and status the server writes (source lines 145-152). -/
structure HttpResponse where
  status : Nat
  contentType : String
  ok : Bool
  payload : Option (List Char)
  error : Option String
  sendRes : Option SendResult
deriving Repr, DecidableEq

/-- Source lines 127-153: the request handler passed to
`http.createServer` inside `startServer`.  On path `/` or `/yap` it
resolves the query parameters, computes `safeN`, runs `yap`, calls the
integration stub and answers `200 {ok:true, payload, sendRes}`; on any
other path it answers `404 {ok:false, error:"not found"}`.  Both branches
set content type `application/json; charset=utf-8`. -/
def serverHandler (o : Nat → Nat → Bool) (pathname : String) (q : HttpQuery) :
    HttpResponse :=
  if pathname = "/" ∨ pathname = "/yap" then
    let resultText := yap o (resolvedMsg q).toList
      { n := some (httpSafeN q), sep := (resolvedSep q).toList,
        mode := resolvedMode q, pre := (resolvedPre q).toList,
        suf := (resolvedSuf q).toList }
    { status := 200, contentType := "application/json; charset=utf-8",
      ok := true, payload := some resultText, error := none,
      sendRes := some (integrateWithService resultText defaultAccount) }
  else
    { status := 404, contentType := "application/json; charset=utf-8",
      ok := false, payload := none, error := some "not found",
      sendRes := none }

/-! ### Supporting lemmas -/

lemma clamp_toNat_bounds (v : Int) :
    1 ≤ (max 1 (min 200 v)).toNat ∧ (max 1 (min 200 v)).toNat ≤ 200 := by
  omega

lemma insertRand_perm (o : Nat → Bool) (c : Char) :
    ∀ (l : List Char) (k : Nat), (insertRand o c l k).1.Perm (c :: l) := by
  intro l
  induction l with
  | nil => intro k; simp [insertRand]
  | cons x xs ih =>
    intro k
    by_cases h : o k
    · simp [insertRand, h]
    · simp only [insertRand, h, if_neg, Bool.false_eq_true, if_false]
      exact ((ih (k + 1)).cons x).trans (List.Perm.swap c x xs)

lemma sortRand_perm (o : Nat → Bool) :
    ∀ (l : List Char) (k : Nat), (sortRand o l k).1.Perm l := by
  intro l
  induction l with
  | nil => intro k; simp [sortRand]
  | cons x xs ih =>
    intro k
    exact (insertRand_perm o x _ _).trans ((ih k).cons x)

lemma shuffleJS_perm (o : Nat → Bool) (s : List Char) : (shuffleJS o s).Perm s :=
  sortRand_perm o s 0

lemma altCase_length (s : List Char) (i : Nat) : (altCase s i).length = s.length := by
  simp [altCase]

lemma modeXform_oracle_irrel (o o' : Nat → Bool) (text : List Char)
    (mode : String) (i : Nat) (h : mode ≠ "shuffle") :
    modeXform o text mode i = modeXform o' text mode i := by
  by_cases h1 : mode = "caps"
  · simp [modeXform, h1]
  · by_cases h2 : mode = "shuffle"
    · exact absurd h2 h
    · simp only [modeXform, if_neg h1, if_neg h2]

/-! ### Claim theorems -/

/-- C1: for every text, mode, prefix, suffix, separator and count option,
the output of `yap` is exactly `k` pieces joined by the separator, where
`k = yapEffCountNat opts.n` is the effective clamped count, `1 ≤ k ≤ 200`,
and the piece at index `i` is `prefix ++ (mode-transformed text) ++ suffix`. -/
theorem yap_output_is_k_joined_pieces (o : Nat → Nat → Bool) (text : List Char)
    (opts : YapOpts) :
    1 ≤ yapEffCountNat opts.n ∧ yapEffCountNat opts.n ≤ 200 ∧
    ((List.range (yapEffCountNat opts.n)).map
        (fun i => opts.pre ++ modeXform (o i) text opts.mode i ++ opts.suf)).length
      = yapEffCountNat opts.n ∧
    (∀ i, i < yapEffCountNat opts.n →
      ((List.range (yapEffCountNat opts.n)).map
          (fun i => opts.pre ++ modeXform (o i) text opts.mode i ++ opts.suf))[i]?
        = some (opts.pre ++ modeXform (o i) text opts.mode i ++ opts.suf)) ∧
    yap o text opts = List.intercalate opts.sep
      ((List.range (yapEffCountNat opts.n)).map
        (fun i => opts.pre ++ modeXform (o i) text opts.mode i ++ opts.suf)) := by
  refine ⟨?_, ?_, by simp, ?_, rfl⟩
  · simpa only [yapEffCountNat, yapEffCount, PACKAGE_MAX_REPEAT] using
      (clamp_toNat_bounds (jsOrInt opts.n 3)).1
  · simpa only [yapEffCountNat, yapEffCount, PACKAGE_MAX_REPEAT] using
      (clamp_toNat_bounds (jsOrInt opts.n 3)).2
  · intro i hi
    simp [List.getElem?_map, List.getElem?_range hi]

/-- Witness for C1 at a concrete input, also discharging the piece-index
hypothesis at index 1. -/
theorem yap_output_is_k_joined_pieces_witness :
    yap (fun _ _ => true) "hi".toList { n := some 2, mode := "caps" }
      = List.intercalate [' ']
          ((List.range 2).map
            (fun i => [] ++ modeXform (fun _ => true) "hi".toList "caps" i ++ [])) ∧
    ((List.range 2).map
        (fun i => [] ++ modeXform (fun _ => true) "hi".toList "caps" i ++ []))[1]?
      = some ([] ++ modeXform (fun _ => true) "hi".toList "caps" 1 ++ []) := by
  have h := yap_output_is_k_joined_pieces (fun _ _ => true) "hi".toList
    { n := some 2, mode := "caps" }
  exact ⟨h.2.2.2.2, h.2.2.2.1 1 (by decide)⟩

/-- C2 counterexample: inside `yap` a count parsing to `0` is falsy, so
`parseInt(n, 10) || 3` falls back to the default `3`; the effective count
is `3`, not the claimed clamped lower bound `1`. -/
theorem count_zero_not_one_counterexample :
    yapEffCount (some 0) = 3 ∧ yapEffCount (some 0) ≠ 1 := by decide

/-- C2 (amended): a count parsing to a nonzero number is clamped to
`[1, 200]` toward the nearer bound, on both the `yap`/CLI path and the
HTTP path; a non-numeric count or a count parsing to `0` falls back to
the default (`3` inside `yap`, hence on the CLI path, and `1` on the HTTP
path); the HTTP `safeN` passed to `yap` survives the re-parse inside
`yap` unchanged. -/
theorem effective_count_characterization :
    (∀ k : Int, k ≠ 0 →
      yapEffCount (some k) = max 1 (min 200 k) ∧
      httpEffCount (some k) = max 1 (min 200 k)) ∧
    yapEffCount none = 3 ∧ yapEffCount (some 0) = 3 ∧
    httpEffCount none = 1 ∧ httpEffCount (some 0) = 1 ∧
    (∀ q : HttpQuery, yapEffCount (some (httpSafeN q)) = httpSafeN q) := by
  refine ⟨?_, by decide, by decide, by decide, by decide, ?_⟩
  · intro k hk
    constructor <;>
      simp [yapEffCount, httpEffCount, jsOrInt, PACKAGE_MAX_REPEAT, hk]
  · intro q
    have hb : 1 ≤ httpSafeN q ∧ httpSafeN q ≤ 200 := by
      have := clamp_toNat_bounds (jsOrInt (httpParsedN q) 1)
      simp only [httpSafeN, httpEffCount, PACKAGE_MAX_REPEAT]
      omega
    have hne : httpSafeN q ≠ 0 := by omega
    simp only [yapEffCount, jsOrInt, PACKAGE_MAX_REPEAT, hne, if_neg, if_false]
    omega

/-- Witness for C2 (amended) at concrete counts. -/
theorem effective_count_characterization_witness :
    yapEffCount (some 300) = max 1 (min 200 300) ∧
    httpEffCount (some (-5)) = max 1 (min 200 (-5)) := by
  refine ⟨(effective_count_characterization.1 300 (by decide)).1,
    (effective_count_characterization.1 (-5) (by decide)).2⟩

/-- C3: in mode `funny`, the piece at repetition index `i` is `altCase`
of the input followed by the parity marker; character `idx` is uppercased
exactly when `idx % 2 = i % 2` and lowercased otherwise; the piece length
is the input length plus the marker length; and the marker depends only on
the parity of `i` (length `1` for `"!"` on even `i`, `3` for `"..."` on
odd `i`). -/
theorem funny_piece_characterization (o : Nat → Bool) (s : List Char) (i : Nat) :
    modeXform o s "funny" i = altCase s i ++ funnyMarker i ∧
    (altCase s i).length = s.length ∧
    (∀ idx : Nat, (altCase s i)[idx]? =
      s[idx]?.map (fun ch => if idx % 2 = i % 2 then ch.toUpper else ch.toLower)) ∧
    (modeXform o s "funny" i).length = s.length + (funnyMarker i).length ∧
    funnyMarker i = funnyMarker (i % 2) ∧
    (funnyMarker i).length = (if i % 2 = 0 then 1 else 3) := by
  refine ⟨rfl, altCase_length s i, ?_, ?_, ?_, ?_⟩
  · intro idx
    simp only [altCase, List.getElem?_map, List.getElem?_enum]
    cases s[idx]? <;> simp
  · simp [modeXform, altCase_length]
  · rcases Nat.mod_two_eq_zero_or_one i with h | h <;> simp [funnyMarker, h]
  · unfold funnyMarker
    rcases Nat.mod_two_eq_zero_or_one i with h | h <;> simp [h]

/-- C4: in mode `shuffle`, each transformed copy is a permutation of the
input characters: same multiset (equal counts for every character), hence
same length; no ordering is required. -/
theorem shuffle_piece_is_permutation (o : Nat → Bool) (s : List Char) (i : Nat) :
    (modeXform o s "shuffle" i).Perm s ∧
    (∀ c : Char, (modeXform o s "shuffle" i).count c = s.count c) ∧
    (modeXform o s "shuffle" i).length = s.length := by
  have hp : (modeXform o s "shuffle" i).Perm s := shuffleJS_perm o s
  exact ⟨hp, fun c => hp.count_eq c, hp.length_eq⟩

/-- C5: lifecycle protocol of the running flag.  From not-running, a first
`startBot` succeeds and sets the flag; a second `startBot` before any stop
fails with the `"bot already running"` error and leaves the flag set;
`stopBot` when not running fails with the `"bot not running"` error and
leaves the flag clear; `stopBot` after a successful start succeeds, and a
further `stopBot` fails again.  Both operations are total functions, so
neither throws. -/
theorem startBot_stopBot_protocol :
    (∀ opts, (startBot false opts).1.ok = true ∧ (startBot false opts).2 = true) ∧
    (∀ opts, (startBot true opts).1.ok = false ∧
      (startBot true opts).1.error = some "bot already running" ∧
      (startBot true opts).2 = true) ∧
    ((stopBot false).1.ok = false ∧
      (stopBot false).1.error = some "bot not running" ∧
      (stopBot false).2 = false) ∧
    ((stopBot true).1.ok = true ∧ (stopBot true).2 = false) ∧
    ((startBot false []).1.ok = true ∧
      (startBot (startBot false []).2 []).1.ok = false ∧
      (startBot (startBot false []).2 []).1.error = some "bot already running" ∧
      (startBot (startBot false []).2 []).2 = (startBot false []).2 ∧
      (stopBot (startBot (startBot false []).2 []).2).1.ok = true ∧
      (stopBot (stopBot (startBot (startBot false []).2 []).2).2).1.ok = false ∧
      (stopBot (stopBot (startBot (startBot false []).2 []).2).2).1.error
        = some "bot not running") := by
  refine ⟨fun opts => ⟨rfl, rfl⟩, fun opts => ⟨rfl, rfl, rfl⟩, ?_, ?_, ?_⟩ <;> decide

/-- C6: `GET /yap?msg=hi&n=2&mode=caps` (other parameters absent) yields a
200 response with `ok = true` and payload `"HI HI"`: two uppercased copies
joined by the default single-space separator. -/
theorem http_yap_caps_example (o : Nat → Nat → Bool) :
    (serverHandler o "/yap" { msg := some "hi", n := some "2", mode := some "caps" }).status
        = 200 ∧
    (serverHandler o "/yap" { msg := some "hi", n := some "2", mode := some "caps" }).ok
        = true ∧
    (serverHandler o "/yap" { msg := some "hi", n := some "2", mode := some "caps" }).payload
        = some "HI HI".toList := by
  exact ⟨rfl, rfl, rfl⟩

/-- C7: a request to any path other than `/` and `/yap` gets a 404
response with `ok = false`, error `"not found"` and JSON content type; a
request to `/` or `/yap` gets a 200 response with `ok = true`; the JSON
content type is set in both cases. -/
theorem http_not_found_and_ok_paths (o : Nat → Nat → Bool) (pathname : String)
    (q : HttpQuery) :
    (pathname ≠ "/" → pathname ≠ "/yap" →
      serverHandler o pathname q =
        { status := 404, contentType := "application/json; charset=utf-8",
          ok := false, payload := none, error := some "not found",
          sendRes := none }) ∧
    ((pathname = "/" ∨ pathname = "/yap") →
      (serverHandler o pathname q).status = 200 ∧
      (serverHandler o pathname q).ok = true) ∧
    (serverHandler o pathname q).contentType = "application/json; charset=utf-8" := by
  by_cases h : pathname = "/" ∨ pathname = "/yap"
  · refine ⟨fun h1 h2 => ?_, fun _ => ?_, ?_⟩
    · rcases h with h | h <;> exact absurd h (by tauto)
    · simp [serverHandler, h]
    · simp [serverHandler, h]
  · refine ⟨fun _ _ => ?_, fun hh => absurd hh h, ?_⟩
    · simp [serverHandler, h]
    · simp [serverHandler, h]

/-- Witness for C7 at a concrete undefined path and at `/yap`. -/
theorem http_not_found_and_ok_paths_witness :
    serverHandler (fun _ _ => true) "/nope" {} =
      { status := 404, contentType := "application/json; charset=utf-8",
        ok := false, payload := none, error := some "not found",
        sendRes := none } ∧
    (serverHandler (fun _ _ => true) "/yap" {}).status = 200 := by
  refine ⟨(http_not_found_and_ok_paths (fun _ _ => true) "/nope" {}).1
      (by decide) (by decide),
    ((http_not_found_and_ok_paths (fun _ _ => true) "/yap" {}).2.1
      (Or.inr rfl)).1⟩

/-- C8: the integration stub always resolves to a success result: `ok` is
`true`, the `error` field is absent and an informational payload is
present, for every input text and configuration.  As a total function it
cannot throw. -/
theorem integrateWithService_always_succeeds (text : List Char)
    (config : List (String × String)) :
    (integrateWithService text config).ok = true ∧
    (integrateWithService text config).error = none ∧
    (integrateWithService text config).info.isSome = true :=
  ⟨rfl, rfl, rfl⟩

/-- C9: for every mode other than `shuffle` (in particular `echo`, `caps`
and `funny`), `yap` is deterministic: its output does not depend on the
random oracle, so two calls with equal text and equal options agree. -/
theorem yap_deterministic_nonshuffle (o o' : Nat → Nat → Bool)
    (text : List Char) (opts : YapOpts) (h : opts.mode ≠ "shuffle") :
    yap o text opts = yap o' text opts := by
  unfold yap
  refine congrArg (List.intercalate opts.sep) (List.map_congr_left ?_)
  intro i _
  rw [modeXform_oracle_irrel (o i) (o' i) text opts.mode i h]

/-- Witness for C9: two distinct oracles, mode `funny`. -/
theorem yap_deterministic_nonshuffle_witness :
    yap (fun _ _ => true) "ab".toList { mode := "funny" }
      = yap (fun _ _ => false) "ab".toList { mode := "funny" } :=
  yap_deterministic_nonshuffle (fun _ _ => true) (fun _ _ => false)
    "ab".toList { mode := "funny" } (by decide)

/-- C10: a query parameter present with the empty value behaves exactly as
an absent one, for each of the eight recognised parameters; in particular
an empty `sep` resolves to the default single space (an empty separator
cannot be requested over HTTP), an empty `mode` resolves to `echo`, and an
`n` equal to `""` or `"0"` (with `count` absent) gives effective count 1. -/
theorem http_empty_params_behave_as_absent (o : Nat → Nat → Bool)
    (pathname : String) (q : HttpQuery) :
    serverHandler o pathname { q with msg := some "" }
      = serverHandler o pathname { q with msg := none } ∧
    serverHandler o pathname { q with message := some "" }
      = serverHandler o pathname { q with message := none } ∧
    serverHandler o pathname { q with n := some "" }
      = serverHandler o pathname { q with n := none } ∧
    serverHandler o pathname { q with count := some "" }
      = serverHandler o pathname { q with count := none } ∧
    serverHandler o pathname { q with sep := some "" }
      = serverHandler o pathname { q with sep := none } ∧
    serverHandler o pathname { q with mode := some "" }
      = serverHandler o pathname { q with mode := none } ∧
    serverHandler o pathname { q with pre := some "" }
      = serverHandler o pathname { q with pre := none } ∧
    serverHandler o pathname { q with suf := some "" }
      = serverHandler o pathname { q with suf := none } ∧
    resolvedSep { q with sep := some "" } = " " ∧
    resolvedMode { q with mode := some "" } = "echo" ∧
    httpSafeN { q with n := some "", count := none } = 1 ∧
    httpSafeN { q with n := some "0", count := none } = 1 := by
  exact ⟨rfl, rfl, rfl, rfl, rfl, rfl, rfl, rfl, rfl, rfl, rfl, rfl⟩
